import Mathlib

/-!
Verification of the execution core of the `benchopt` benchmarking harness
(`benchopt/base.py` and collaborators), via a shallow embedding in Lean.

Part 1: the parametrized-naming mixin `ParametrizedNameMixin`.

`ParametrizedNameMixin.__init__` stores the constructor keyword arguments as
`self.parameters` (an ordered mapping) and, when no template is predefined,
builds `parameter_template = ",".join(f"{k}={v}" for k, v in parameters)`.
`_name` is `f"{self.name}({self.parameter_template})"` and `__repr__` is

    if len(self.parameters) == 0: return self.name.capitalize()
    return self._name.format(**self.parameters).capitalize()

We model parameter mappings as ordered association lists of rendered strings
(`f"{v}"` already applied to each value), and model the Python string
primitives `str.capitalize` and `str.format` faithfully for this use.
-/

/-- Python `str.capitalize`: the first character is upper-cased and every
remaining character is lower-cased (ASCII behaviour of CPython). -/
def pyCapitalize (s : String) : String :=
  match s.data with
  | [] => ""
  | c :: cs => String.mk (c.toUpper :: cs.map Char.toLower)

/-- The default `parameter_template` of `ParametrizedNameMixin.__init__`:
`",".join([f"{k}={v}" for k, v in parameters.items()])`. -/
def parameter_template : List (String × String) → String
  | [] => ""
  | [(k, v)] => k ++ "=" ++ v
  | (k, v) :: p :: ps => k ++ "=" ++ v ++ "," ++ parameter_template (p :: ps)

/-- The `_name` property: `f"{self.name}({self.parameter_template})"`. -/
def underscore_name (name : String) (params : List (String × String)) : String :=
  name ++ "(" ++ parameter_template params ++ ")"

/-- Keyword lookup for `str.format(**parameters)`: first binding of the key. -/
def lookupKey (params : List (String × String)) (k : String) : Option String :=
  (params.find? (fun p => p.1 = k)).map Prod.snd

mutual

/-- Python `str.format(**params)` on a character list: `\x7b\x7b` and
`\x7d\x7d` are literal braces, `\x7bkey\x7d` is replaced by the value bound
to `key`, a lone `\x7d`, an unclosed field or an unknown key is an error
(`none`, modelling the raised `ValueError`/`KeyError`). -/
def pyFormatAux (params : List (String × String)) (cs : List Char) :
    Option (List Char) :=
  match cs with
  | [] => some []
  | c :: rest =>
    if c = '\x7b' then
      match rest with
      | c2 :: rest2 =>
        if c2 = '\x7b' then (pyFormatAux params rest2).map (fun t => '\x7b' :: t)
        else pyReadField params [] (c2 :: rest2)
      | [] => none
    else if c = '\x7d' then
      match rest with
      | c2 :: rest2 =>
        if c2 = '\x7d' then (pyFormatAux params rest2).map (fun t => '\x7d' :: t)
        else none
      | [] => none
    else
      (pyFormatAux params rest).map (fun t => c :: t)
termination_by cs.length
decreasing_by
  all_goals simp only [List.length_cons]
  all_goals omega

/-- Reads the characters of a replacement-field name up to the closing brace
(`acc` holds the characters read so far), substitutes the bound value and
formats the remainder of the template. -/
def pyReadField (params : List (String × String)) (acc : List Char)
    (cs : List Char) : Option (List Char) :=
  match cs with
  | [] => none
  | c :: rest =>
    if c = '\x7d' then
      match lookupKey params (String.mk acc) with
      | none => none
      | some v => (pyFormatAux params rest).map (fun t => v.data ++ t)
    else
      pyReadField params (acc ++ [c]) rest
termination_by cs.length
decreasing_by
  all_goals simp only [List.length_cons]
  all_goals omega

end

/-- Python `str.format(**params)` on a string. -/
def pyFormat (params : List (String × String)) (s : String) : Option String :=
  (pyFormatAux params s.data).map String.mk

/-- `ParametrizedNameMixin.__repr__` with the default parameter template:
`name.capitalize()` when no parameters, else
`_name.format(**parameters).capitalize()` (`none` models a raised error). -/
def reprMixin (name : String) (params : List (String × String)) : Option String :=
  if params.length = 0 then some (pyCapitalize name)
  else (pyFormat params (underscore_name name params)).map pyCapitalize

/-- A character that is not an opening or closing brace. -/
def braceFreeChar (c : Char) : Bool := !(c = '\x7b' || c = '\x7d')

/-- A string with no brace character: `str.format` leaves it unchanged. -/
def braceFree (s : String) : Bool := s.data.all braceFreeChar

/-- Python `str.lower` (ASCII behaviour). -/
def lowerStr (s : String) : String := String.mk (s.data.map Char.toLower)

/-- The claim reading of the display rule, for comparison with the code:
the first letter is upper-cased and the remaining characters are kept
unchanged. -/
def capitalizeFirstOnly (s : String) : String :=
  match s.data with
  | [] => ""
  | c :: cs => String.mk (c.toUpper :: cs)

theorem pyFormatAux_of_braceFree (params : List (String × String))
    (cs : List Char) (h : cs.all braceFreeChar = true) :
    pyFormatAux params cs = some cs := by
  induction cs with
  | nil => rw [pyFormatAux.eq_def]
  | cons c rest ih =>
    simp only [List.all_cons, Bool.and_eq_true] at h
    have hc : ¬(c = '\x7b') ∧ ¬(c = '\x7d') := by
      have := h.1
      simp only [braceFreeChar, Bool.not_eq_eq_eq_not, Bool.not_true,
        Bool.or_eq_false_iff, decide_eq_false_iff_not] at this
      exact this
    rw [pyFormatAux.eq_def]
    simp only [if_neg hc.1, if_neg hc.2, ih h.2]
    rfl

theorem pyFormat_of_braceFree (params : List (String × String)) (s : String)
    (h : braceFree s = true) : pyFormat params s = some s := by
  simp [pyFormat, pyFormatAux_of_braceFree params s.data h]

theorem braceFree_append (s t : String) :
    braceFree (s ++ t) = (braceFree s && braceFree t) := by
  simp [braceFree, String.data_append, List.all_append]

theorem braceFree_parameter_template (params : List (String × String))
    (h : ∀ p ∈ params, braceFree p.1 = true ∧ braceFree p.2 = true) :
    braceFree (parameter_template params) = true := by
  induction params with
  | nil => rfl
  | cons q rest ih =>
    obtain ⟨k, v⟩ := q
    have hq := h (k, v) (List.mem_cons_self _ _)
    cases rest with
    | nil =>
      simp only [parameter_template, braceFree_append, Bool.and_eq_true]
      refine ⟨⟨hq.1, ?_⟩, hq.2⟩
      rfl
    | cons r rs =>
      have hrest := ih (fun p hp => h p (List.mem_cons_of_mem _ hp))
      simp only [parameter_template, braceFree_append, Bool.and_eq_true]
      exact ⟨⟨⟨⟨hq.1, rfl⟩, hq.2⟩, rfl⟩, hrest⟩

theorem braceFree_underscore_name (name : String)
    (params : List (String × String)) (hname : braceFree name = true)
    (h : ∀ p ∈ params, braceFree p.1 = true ∧ braceFree p.2 = true) :
    braceFree (underscore_name name params) = true := by
  simp only [underscore_name, braceFree_append, Bool.and_eq_true]
  exact ⟨⟨⟨hname, rfl⟩, braceFree_parameter_template params h⟩, rfl⟩

theorem pair_infix_parameter_template (params : List (String × String))
    (p : String × String) (hp : p ∈ params) :
    (p.1 ++ "=" ++ p.2).data <:+: (parameter_template params).data := by
  induction params with
  | nil => cases hp
  | cons q rest ih =>
    obtain ⟨k, v⟩ := q
    cases rest with
    | nil =>
      have : p = (k, v) := by simpa using hp
      subst this
      exact List.infix_refl _
    | cons r rs =>
      rcases List.mem_cons.mp hp with hpq | hp'
      · subst hpq
        refine ⟨[], (",".data ++ (parameter_template (r :: rs)).data), ?_⟩
        simp [parameter_template, String.data_append]
      · obtain ⟨u, w, huw⟩ := ih hp'
        refine ⟨(k ++ "=" ++ v ++ ",").data ++ u, w, ?_⟩
        have hT : (parameter_template ((k, v) :: r :: rs)).data =
            (k ++ "=" ++ v ++ ",").data ++ (parameter_template (r :: rs)).data := by
          simp [parameter_template, String.data_append]
        rw [hT, ← huw]
        simp [List.append_assoc]

theorem template_infix_tail_underscore (name : String)
    (params : List (String × String)) :
    (parameter_template params).data <:+:
      (underscore_name name params).data.tail := by
  have hdata : (underscore_name name params).data =
      name.data ++ '(' :: ((parameter_template params).data ++ [')']) := by
    simp [underscore_name, String.data_append]
  cases hn : name.data with
  | nil =>
    rw [hdata, hn]
    exact ⟨[], [')'], by simp⟩
  | cons a as =>
    rw [hdata, hn]
    exact ⟨as ++ ['('], [')'], by simp⟩

theorem lowerStr_infix_pyCapitalize (t s : String)
    (h : t.data <:+: s.data.tail) :
    (lowerStr t).data <:+: (pyCapitalize s).data := by
  cases hs : s.data with
  | nil =>
    rw [hs] at h
    have : t.data = [] := List.eq_nil_of_infix_nil h
    simp [lowerStr, pyCapitalize, hs, this]
  | cons c cs =>
    rw [hs] at h
    simp only [List.tail_cons] at h
    simp only [pyCapitalize, hs, lowerStr]
    exact List.infix_cons (h.map Char.toLower)

/-- C1: counterexample. For the solver name "R-PGD" (the name used by the
repository test benchmark solver) with an empty parameter mapping,
`__repr__` returns "R-pgd": Python `str.capitalize` lower-cases every
character after the first, so the display name is not the class name with
its first letter capitalized (that reading leaves "R-PGD" unchanged). -/
theorem C1_counterexample :
    reprMixin "R-PGD" [] = some "R-pgd" ∧
    capitalizeFirstOnly "R-PGD" = "R-PGD" ∧
    reprMixin "R-PGD" [] ≠ some (capitalizeFirstOnly "R-PGD") := by
  refine ⟨by decide, by decide, by decide⟩

/-- C1 (amended): for every parametrized entity with a brace-free class name
and brace-free rendered parameter pairs, the display name with an empty
parameter mapping is Python-`capitalize` of the name (first character
upper-cased, all the following characters lower-cased), and with a
non-empty mapping it is Python-`capitalize` of the formatted template
`name(key1=v1,key2=v2)` (keys in declaration order, comma-joined) and
contains the lower-cased rendering of every key/value pair. -/
theorem C1_display_name_amended (name : String)
    (params : List (String × String)) (hname : braceFree name = true)
    (hpairs : ∀ p ∈ params, braceFree p.1 = true ∧ braceFree p.2 = true) :
    (params.length = 0 → reprMixin name params = some (pyCapitalize name)) ∧
    (params.length ≠ 0 →
      reprMixin name params =
        some (pyCapitalize (underscore_name name params)) ∧
      ∀ p ∈ params, (lowerStr (p.1 ++ "=" ++ p.2)).data <:+:
        (pyCapitalize (underscore_name name params)).data) := by
  constructor
  · intro h0
    simp [reprMixin, h0]
  · intro hne
    have hfmt := pyFormat_of_braceFree params (underscore_name name params)
      (braceFree_underscore_name name params hname hpairs)
    refine ⟨by simp only [reprMixin]; rw [if_neg hne, hfmt]; rfl, ?_⟩
    intro p hp
    exact lowerStr_infix_pyCapitalize _ _
      ((pair_infix_parameter_template params p hp).trans
        (template_infix_tail_underscore name params))

/-- C1 witness: the amended display rule evaluated at name "sgd" with the
parameter mapping alpha=1.9, beta=2. -/
theorem C1_display_name_amended_witness :
    braceFree "sgd" = true ∧
    (∀ p ∈ [("alpha", "1.9"), ("beta", "2")],
      braceFree (Prod.fst p) = true ∧ braceFree (Prod.snd p) = true) ∧
    (([("alpha", "1.9"), ("beta", "2")] : List (String × String)).length = 0 →
      reprMixin "sgd" [("alpha", "1.9"), ("beta", "2")] =
        some (pyCapitalize "sgd")) ∧
    (([("alpha", "1.9"), ("beta", "2")] : List (String × String)).length ≠ 0 →
      reprMixin "sgd" [("alpha", "1.9"), ("beta", "2")] =
        some (pyCapitalize
          (underscore_name "sgd" [("alpha", "1.9"), ("beta", "2")])) ∧
      ∀ p ∈ [("alpha", "1.9"), ("beta", "2")],
        (lowerStr (Prod.fst p ++ "=" ++ Prod.snd p)).data <:+:
          (pyCapitalize
            (underscore_name "sgd" [("alpha", "1.9"), ("beta", "2")])).data) := by
  refine ⟨by decide, by decide, ?_⟩
  have h := C1_display_name_amended "sgd" [("alpha", "1.9"), ("beta", "2")]
    (by decide) (by decide)
  exact ⟨h.1, h.2⟩

/-!
Part 2: the installation manager — `BaseSolver.is_installed`, `install`,
`uninstall` and the class properties `package_import` / `package_install`
(`benchopt/base.py`). The helpers `check_import_solver`, `check_cmd_solver`,
`pip_install_in_env`, `bash_install_in_env` and `pip_uninstall_in_env` come
from `benchopt/util.py`, which is not among the sources under verification;
they are modelled from the spec below. Installs mutate an abstract
environment and are recorded in a trace of actions.
-/

/-- A Python error raised by the embedded code. -/
inductive PyError where
  | runtimeError (msg : String)
  | indexError
  | valueError
deriving DecidableEq, Repr

/-- A solver class as the installation manager sees it: the declared
`install_cmd` (`none` models Python `None`) and the mechanism-specific
class attributes. `packageInstall?` / `packageImport?` model an explicit
class attribute shadowing the inherited default class property. -/
structure SolverClass where
  installCmd : Option String
  packageName : String
  packageInstall? : Option String
  packageImport? : Option String
  installScript : String
  cmdName : String
deriving DecidableEq, Repr

/-- Modelled from the spec: the state of an environment as the install
mechanisms of `benchopt/util.py` see it — which python packages import
successfully and which commands resolve on the PATH — together with the
fixed semantics of the mechanisms: which import names a pip distribution
provides and which commands an install script provides. -/
structure World where
  pkgs : List String
  cmds : List String
  pipProvides : String → List String
  scriptCmds : String → List String

/-- One underlying install-mechanism action, as recorded in a trace. -/
inductive InstallAction where
  | pipInstall (pkg : String)
  | bashInstall (script : String)
  | pipUninstall (pkg : String)
deriving DecidableEq, Repr

/-- Modelled from the spec: `check_import_solver(name, env)` — package-install
check, true when importing `name` succeeds inside the environment. -/
def check_import_solver (name : String) (w : World) : Bool :=
  w.pkgs.contains name

/-- Modelled from the spec: `check_cmd_solver(cmd, env)` — script-install
check, true when `cmd` resolves on the environment execution path. -/
def check_cmd_solver (cmd : String) (w : World) : Bool :=
  w.cmds.contains cmd

/-- Modelled from the spec: `pip_install_in_env(pkg, env)` — pip installs the
distribution `pkg`, making the import names it provides importable. -/
def pip_install_in_env (pkg : String) (w : World) : World :=
  { w with pkgs := w.pipProvides pkg ++ w.pkgs }

/-- Modelled from the spec: `bash_install_in_env(script, env)` — runs the
install script with the environment directory as argument, making the
commands the script provides available on the PATH. -/
def bash_install_in_env (script : String) (w : World) : World :=
  { w with cmds := w.scriptCmds script ++ w.cmds }

/-- Modelled from the spec: `pip_uninstall_in_env(pkg, env)` — removes
the import names provided by the distribution `pkg`. -/
def pip_uninstall_in_env (pkg : String) (w : World) : World :=
  { w with pkgs := w.pkgs.filter (fun p => !(w.pipProvides pkg).contains p) }

/-- Python `str()` of the `install_cmd` value, as used by `"...".format`. -/
def pyStrOption : Option String → String
  | none => "None"
  | some s => s

/-- The message of the RuntimeError raised by the `package_import` and
`package_install` class properties. -/
def installCmdErrorMsg (c : SolverClass) : String :=
  "This property should only be accessed when install_cmd=\x27pip\x27. " ++
    "Here, install_cmd=" ++ pyStrOption c.installCmd

/-- The class property `BaseSolver.package_import`: defaults to
`package_name` for a pip solver and raises a RuntimeError otherwise. -/
def package_import (c : SolverClass) : Except PyError String :=
  if c.installCmd = some "pip" then Except.ok c.packageName
  else Except.error (PyError.runtimeError (installCmdErrorMsg c))

/-- The class property `BaseSolver.package_install`: defaults to
`package_name` for a pip solver and raises a RuntimeError otherwise. -/
def package_install (c : SolverClass) : Except PyError String :=
  if c.installCmd = some "pip" then Except.ok c.packageName
  else Except.error (PyError.runtimeError (installCmdErrorMsg c))

/-- Python attribute lookup `cls.package_import`: an explicit class
attribute shadows the inherited class property. -/
def packageImportAttr (c : SolverClass) : Except PyError String :=
  match c.packageImport? with
  | some v => Except.ok v
  | none => package_import c

/-- Python attribute lookup `cls.package_install`. -/
def packageInstallAttr (c : SolverClass) : Except PyError String :=
  match c.packageInstall? with
  | some v => Except.ok v
  | none => package_install c

/-- The import name a pip solver resolves to (`package_import`). -/
def importNameD (c : SolverClass) : String :=
  c.packageImport?.getD c.packageName

/-- The install name a pip solver resolves to (`package_install`). -/
def installNameD (c : SolverClass) : String :=
  c.packageInstall?.getD c.packageName

theorem packageImportAttr_pip (c : SolverClass)
    (h : c.installCmd = some "pip") :
    packageImportAttr c = Except.ok (importNameD c) := by
  unfold packageImportAttr importNameD package_import
  cases c.packageImport? <;> simp [h]

theorem packageInstallAttr_pip (c : SolverClass)
    (h : c.installCmd = some "pip") :
    packageInstallAttr c = Except.ok (installNameD c) := by
  unfold packageInstallAttr installNameD package_install
  cases c.packageInstall? <;> simp [h]

/-- `BaseSolver.is_installed`: package-install solvers check the import
name, script-install solvers check the command name, every other mechanism
always reports installed. -/
def is_installed (c : SolverClass) (w : World) : Bool :=
  if c.installCmd = some "pip" then check_import_solver (importNameD c) w
  else if c.installCmd = some "bash" then check_cmd_solver c.cmdName w
  else true

/-- `BaseSolver.uninstall`: pip removal of `package_name` for a pip solver,
otherwise nothing is done and nothing is raised. Returns the new
environment and the actions performed. -/
def uninstall (c : SolverClass) (w : World) : World × List InstallAction :=
  if c.installCmd = some "pip" then
    (pip_uninstall_in_env c.packageName w, [InstallAction.pipUninstall c.packageName])
  else (w, [])

/-- The body of the guarded install block of `BaseSolver.install`: the
mechanism-specific install action (`pip_install_in_env` on
`package_install` for pip, `bash_install_in_env` on `install_script` for
bash, nothing otherwise). -/
def installStep (c : SolverClass) (w : World) : World × List InstallAction :=
  if c.installCmd = some "pip" then
    (pip_install_in_env (installNameD c) w,
      [InstallAction.pipInstall (installNameD c)])
  else if c.installCmd = some "bash" then
    (bash_install_in_env c.installScript w,
      [InstallAction.bashInstall c.installScript])
  else (w, [])

/-- Result of one `BaseSolver.install` call: the returned boolean, the new
environment, and the underlying mechanism actions performed in order. -/
structure InstallOutcome where
  result : Bool
  world : World
  trace : List InstallAction

/-- `BaseSolver.install(env_name, force)`: when `force`, uninstall first;
then, when `force` or not installed, perform the mechanism-specific
install action; finally return a fresh `is_installed` check. -/
def install (c : SolverClass) (w : World) (force : Bool) : InstallOutcome :=
  let u := if force then uninstall c w else (w, [])
  let s := if force || !(is_installed c u.1) then installStep c u.1
    else (u.1, [])
  { result := is_installed c s.1, world := s.1, trace := u.2 ++ s.2 }

/-- Is an action a mechanism install action (as opposed to a removal)? -/
def isInstallAction : InstallAction → Bool
  | InstallAction.pipInstall _ => true
  | InstallAction.bashInstall _ => true
  | InstallAction.pipUninstall _ => false

/-- The mechanism-specific install action a solver class declares, when its
mechanism has one. -/
def mechAction (c : SolverClass) : Option InstallAction :=
  if c.installCmd = some "pip" then some (InstallAction.pipInstall (installNameD c))
  else if c.installCmd = some "bash" then
    some (InstallAction.bashInstall c.installScript)
  else none

/-- The pip solver of the spec scenario: `package_name = "foo"`, no
overridden attributes. -/
def pipFooSolver : SolverClass := ⟨some "pip", "foo", none, none, "", ""⟩

/-- The RSolver helper class of the repository: `install_cmd = "conda"`,
a mechanism the installation manager does not recognize. -/
def condaSolver : SolverClass := ⟨some "conda", "r-base", none, none, "", ""⟩

/-- A pip solver whose `package_install` class attribute differs from its
`package_name` (the documented hook for a different install name). -/
def pipOverrideSolver : SolverClass :=
  ⟨some "pip", "sklearn", some "scikit-learn", none, "", ""⟩

/-- An environment with nothing installed, in which pip-installing a
distribution makes exactly that name importable and install scripts
provide no command. -/
def emptyWorld : World := ⟨[], [], fun p => [p], fun _ => []⟩

/-- C8: on a solver class that does not override them, the class properties
`package_import` and `package_install` raise a RuntimeError immediately
whenever the declared installation mechanism is not "pip", and for a pip
solver both default to `package_name`. -/
theorem C8_package_metadata (c : SolverClass) :
    (c.installCmd ≠ some "pip" →
      package_import c =
        Except.error (PyError.runtimeError (installCmdErrorMsg c)) ∧
      package_install c =
        Except.error (PyError.runtimeError (installCmdErrorMsg c))) ∧
    (c.installCmd = some "pip" →
      package_import c = Except.ok c.packageName ∧
      package_install c = Except.ok c.packageName) := by
  constructor
  · intro h
    exact ⟨by simp [package_import, h], by simp [package_install, h]⟩
  · intro h
    exact ⟨by simp [package_import, h], by simp [package_install, h]⟩

/-- C8 witness: the conda-mechanism RSolver class raises on both
properties, and the pip scenario solver resolves both to "foo". -/
theorem C8_package_metadata_witness :
    condaSolver.installCmd ≠ some "pip" ∧
    (package_import condaSolver =
      Except.error (PyError.runtimeError (installCmdErrorMsg condaSolver)) ∧
    package_install condaSolver =
      Except.error (PyError.runtimeError (installCmdErrorMsg condaSolver))) ∧
    pipFooSolver.installCmd = some "pip" ∧
    (package_import pipFooSolver = Except.ok pipFooSolver.packageName ∧
    package_install pipFooSolver = Except.ok pipFooSolver.packageName) := by
  refine ⟨by decide, (C8_package_metadata condaSolver).1 (by decide),
    by decide, (C8_package_metadata pipFooSolver).2 (by decide)⟩

/-- C9: for a solver class whose `install_cmd` is neither "pip" nor "bash"
(Python `None`, or an unrecognized string such as the "conda" used by
RSolver), `is_installed` reports true in every environment, `install`
performs no mechanism install action and returns true, and `uninstall`
performs no removal action and raises nothing. -/
theorem C9_other_mechanism_noop (c : SolverClass) (w : World) (force : Bool)
    (h1 : c.installCmd ≠ some "pip") (h2 : c.installCmd ≠ some "bash") :
    is_installed c w = true ∧
    (install c w force).result = true ∧
    (install c w force).trace = [] ∧
    (uninstall c w).2 = [] := by
  have hi : ∀ v : World, is_installed c v = true := fun v => by
    simp [is_installed, h1, h2]
  have hu : uninstall c w = (w, []) := by simp [uninstall, h1]
  have hs : ∀ v : World, installStep c v = (v, []) := fun v => by
    simp [installStep, h1, h2]
  cases force <;> simp [install, hu, hs, hi]

/-- C9 witness: the RSolver class (conda mechanism) in the empty
environment. -/
theorem C9_other_mechanism_noop_witness :
    condaSolver.installCmd ≠ some "pip" ∧
    condaSolver.installCmd ≠ some "bash" ∧
    (is_installed condaSolver emptyWorld = true ∧
    (install condaSolver emptyWorld false).result = true ∧
    (install condaSolver emptyWorld false).trace = [] ∧
    (uninstall condaSolver emptyWorld).2 = []) := by
  exact ⟨by decide, by decide,
    C9_other_mechanism_noop condaSolver emptyWorld false
      (by decide) (by decide)⟩

/-- C10: `uninstall` always passes `package_name` to the pip removal
action, while `install` passes `package_install`; a pip solver class that
overrides `package_install` with a name different from `package_name`
therefore uninstalls one package name and installs a different one on a
force reinstall. -/
theorem C10_uninstall_install_names (c : SolverClass) (w : World)
    (q : String) (hpip : c.installCmd = some "pip")
    (hover : c.packageInstall? = some q) (hne : q ≠ c.packageName) :
    (uninstall c w).2 = [InstallAction.pipUninstall c.packageName] ∧
    packageInstallAttr c = Except.ok q ∧
    (install c w true).trace =
      [InstallAction.pipUninstall c.packageName,
        InstallAction.pipInstall q] ∧
    InstallAction.pipInstall q ≠
      InstallAction.pipInstall c.packageName := by
  have hname : installNameD c = q := by simp [installNameD, hover]
  refine ⟨by simp [uninstall, hpip], ?_, ?_, by simpa using hne⟩
  · rw [packageInstallAttr_pip c hpip, hname]
  · simp [install, uninstall, installStep, hpip, hname]

/-- C10 witness: the solver with `package_name = "sklearn"` and
`package_install = "scikit-learn"`. -/
theorem C10_uninstall_install_names_witness :
    pipOverrideSolver.installCmd = some "pip" ∧
    pipOverrideSolver.packageInstall? = some "scikit-learn" ∧
    ("scikit-learn" : String) ≠ pipOverrideSolver.packageName ∧
    ((uninstall pipOverrideSolver emptyWorld).2 =
      [InstallAction.pipUninstall pipOverrideSolver.packageName] ∧
    packageInstallAttr pipOverrideSolver = Except.ok "scikit-learn" ∧
    (install pipOverrideSolver emptyWorld true).trace =
      [InstallAction.pipUninstall pipOverrideSolver.packageName,
        InstallAction.pipInstall "scikit-learn"] ∧
    InstallAction.pipInstall "scikit-learn" ≠
      InstallAction.pipInstall pipOverrideSolver.packageName) := by
  exact ⟨by decide, by decide, by decide,
    C10_uninstall_install_names pipOverrideSolver emptyWorld "scikit-learn"
      (by decide) (by decide) (by decide)⟩

/-- C3: `install(env, force=True)` performs the uninstall operation first
and then the mechanism-specific install action, regardless of the prior
installation state (the environment `w` is arbitrary), and returns the
result of a fresh `is_installed` check on the post-action environment. -/
theorem C3_force_reinstall (c : SolverClass) (w : World) (a : InstallAction)
    (ha : mechAction c = some a) :
    (install c w true).trace = (uninstall c w).2 ++ [a] ∧
    (install c w true).result =
      is_installed c (install c w true).world := by
  refine ⟨?_, rfl⟩
  by_cases hp : c.installCmd = some "pip"
  · simp only [mechAction, if_pos hp, Option.some.injEq] at ha
    simp [install, installStep, hp, ← ha]
  · by_cases hb : c.installCmd = some "bash"
    · simp only [mechAction, if_neg hp, if_pos hb, Option.some.injEq] at ha
      simp [install, installStep, hp, hb, ← ha]
    · simp [mechAction, hp, hb] at ha

/-- C3 witness: the pip scenario solver force-reinstalled in the empty
environment. -/
theorem C3_force_reinstall_witness :
    mechAction pipFooSolver = some (InstallAction.pipInstall "foo") ∧
    ((install pipFooSolver emptyWorld true).trace =
      (uninstall pipFooSolver emptyWorld).2 ++
        [InstallAction.pipInstall "foo"] ∧
    (install pipFooSolver emptyWorld true).result =
      is_installed pipFooSolver (install pipFooSolver emptyWorld true).world) := by
  exact ⟨by decide,
    C3_force_reinstall pipFooSolver emptyWorld
      (InstallAction.pipInstall "foo") (by decide)⟩

theorem countP_installStep_le_one (c : SolverClass) (w : World) :
    ((installStep c w).2).countP isInstallAction ≤ 1 := by
  by_cases hp : c.installCmd = some "pip"
  · simp [installStep, hp, List.countP_cons, isInstallAction]
  · by_cases hb : c.installCmd = some "bash"
    · simp [installStep, hp, hb, List.countP_cons, isInstallAction]
    · simp [installStep, hp, hb]

/-- C2: without force, two consecutive `install` calls perform the
underlying mechanism install action at most once, given that the action —
when performed — does make the solver report installed (the meaning of a
successful underlying action); after an install whose underlying action
succeeds, the returned status is true; and when the solver is already
installed, `install` performs no action at all and returns true. -/
theorem C2_install_idempotent (c : SolverClass) (w : World)
    (hsucc : is_installed c (installStep c w).1 = true) :
    ((install c w false).trace ++
        (install c (install c w false).world false).trace).countP
      isInstallAction ≤ 1 ∧
    (install c w false).result = true ∧
    (is_installed c w = true →
      (install c w false).result = true ∧
      (install c w false).trace = []) := by
  by_cases h : is_installed c w = true
  · have hfst : install c w false = ⟨true, w, []⟩ := by
      simp [install, h]
    rw [hfst]
    simp [hfst]
  · have hfst : install c w false =
        ⟨is_installed c (installStep c w).1, (installStep c w).1,
          (installStep c w).2⟩ := by
      simp [install, h]
    have hsnd : install c (installStep c w).1 false =
        ⟨true, (installStep c w).1, []⟩ := by
      simp [install, hsucc]
    rw [hfst]
    simp only [hsnd, List.append_nil]
    exact ⟨countP_installStep_le_one c w, hsucc, fun hw => absurd hw h⟩

/-- C2 witness: the pip scenario solver installed twice in the empty
environment. -/
theorem C2_install_idempotent_witness :
    is_installed pipFooSolver (installStep pipFooSolver emptyWorld).1 = true ∧
    (((install pipFooSolver emptyWorld false).trace ++
        (install pipFooSolver
          (install pipFooSolver emptyWorld false).world false).trace).countP
      isInstallAction ≤ 1 ∧
    (install pipFooSolver emptyWorld false).result = true ∧
    (is_installed pipFooSolver emptyWorld = true →
      (install pipFooSolver emptyWorld false).result = true ∧
      (install pipFooSolver emptyWorld false).trace = [])) := by
  exact ⟨by decide,
    C2_install_idempotent pipFooSolver emptyWorld (by decide)⟩

/-!
Part 3: the I/O-corrected timing protocol of `CommandLineSolver._time_run`.
The method wraps the solver command line with
`/usr/bin/time --format=%e\t%S\t%U`, measures `delta_t` around the whole
wrapped invocation, extracts the first match of the regular expression
`([0-9.]*)\t*([0-9.]*)\t([0-9.]*)` from the wrapper output
(`re.findall(...)[0]`), converts the three groups with `float`, computes
`io_time = total_time - (sys_time + usr_time)` and returns
`delta_t - io_time`. We embed the parsing and the arithmetic exactly,
taking the wrapper output and the measured wall time as inputs (the
subprocess execution and the clock are ambient effects of the runner);
times are rationals. The regex engine below reproduces the Python
backtracking semantics for this pattern: each starred group is tried
greedily, longest first.
-/

/-- A character matched by the regex character class `[0-9.]`. -/
def isFloatChar (c : Char) : Bool := c.isDigit || c = '.'

/-- Matches the suffix `([0-9.]*)\t([0-9.]*)` of the timer regex at `s`:
the viable lengths of the second group are tried longest first, each
requiring a literal tab right after; the third group is greedy with
nothing following it. Returns (group2, group3, rest-of-input). -/
def matchG2Tab (s : List Char) : Option (List Char × List Char × List Char) :=
  ((List.range ((s.takeWhile isFloatChar).length + 1)).reverse).findSome?
    (fun n =>
      match s.drop n with
      | '\t' :: rest =>
        some (s.take n, rest.takeWhile isFloatChar,
          rest.dropWhile isFloatChar)
      | _ => none)

/-- Matches `\t*([0-9.]*)\t([0-9.]*)` at `s`, trying the greedy-longest
tab run first. -/
def matchTabsG2 (s : List Char) : Option (List Char × List Char × List Char) :=
  ((List.range ((s.takeWhile (fun c => c = '\t')).length + 1)).reverse).findSome?
    (fun n => matchG2Tab (s.drop n))

/-- Attempts the whole timer regex `([0-9.]*)\t*([0-9.]*)\t([0-9.]*)` at
the start of `s`, greedy with backtracking on the first group. Returns
the three groups and the remaining input. -/
def matchTripleAt (s : List Char) :
    Option ((List Char × List Char × List Char) × List Char) :=
  ((List.range ((s.takeWhile isFloatChar).length + 1)).reverse).findSome?
    (fun n =>
      (matchTabsG2 (s.drop n)).map
        (fun g => ((s.take n, g.1, g.2.1), g.2.2)))

/-- The first match of the timer regex in the output, scanning start
positions left to right as `re.findall` does; `none` models the
IndexError raised by `findall(...)[0]` on an empty match list. -/
def findFirstTriple : List Char → Option (List Char × List Char × List Char)
  | [] => none
  | c :: rest =>
    match matchTripleAt (c :: rest) with
    | some (g, _) => some g
    | none => findFirstTriple rest

/-- The numeric value of a run of decimal digits. -/
def digitsVal (cs : List Char) : Nat :=
  cs.foldl (fun a c => 10 * a + (c.toNat - 48)) 0

/-- Python `float(s)` restricted to the strings a timer-regex group can
hold (digits and dots): at most one dot and at least one digit, else a
ValueError (`none`). -/
def pyFloat? (s : List Char) : Option ℚ :=
  match s.dropWhile Char.isDigit with
  | [] =>
    if (s.takeWhile Char.isDigit).isEmpty then none
    else some (digitsVal (s.takeWhile Char.isDigit) : ℚ)
  | c :: fp =>
    if c = '.' ∧ fp.all Char.isDigit = true ∧
        (s.takeWhile Char.isDigit ≠ [] ∨ fp ≠ []) then
      some ((digitsVal (s.takeWhile Char.isDigit) : ℚ) +
        (digitsVal fp : ℚ) / (10 : ℚ) ^ fp.length)
    else none

/-- `CommandLineSolver._time_run`, given the timer-wrapper output and the
wall time `delta_t` the caller measured around the wrapped invocation:
parse the first regex triple (IndexError when there is none), convert the
three groups with `float` (ValueError on failure), and return
`delta_t - (total_time - (sys_time + usr_time))`. -/
def time_run (output : String) (delta_t : ℚ) : Except PyError ℚ :=
  match findFirstTriple output.data with
  | none => Except.error PyError.indexError
  | some (t, s, u) =>
    match pyFloat? t, pyFloat? s, pyFloat? u with
    | some total, some sys_t, some usr_t =>
      Except.ok (delta_t - (total - (sys_t + usr_t)))
    | _, _, _ => Except.error PyError.valueError

/-- The timer output holds no parseable triple of numeric fields: either
the regex does not match at all, or a matched group is not a valid
float. -/
def tripleParseFails (output : String) : Bool :=
  match findFirstTriple output.data with
  | none => true
  | some (t, s, u) =>
    (pyFloat? t).isNone || (pyFloat? s).isNone || (pyFloat? u).isNone

theorem pyFloat_digits (s ip fp : List Char)
    (h1 : s.takeWhile Char.isDigit = ip)
    (h2 : s.dropWhile Char.isDigit = '.' :: fp)
    (h3 : fp.all Char.isDigit = true) (h4 : ip ≠ [] ∨ fp ≠ []) :
    pyFloat? s = some ((digitsVal ip : ℚ) +
      (digitsVal fp : ℚ) / (10 : ℚ) ^ fp.length) := by
  unfold pyFloat?
  rw [h2, h1]
  exact if_pos ⟨rfl, h3, h4⟩

theorem pyFloat_1000 : pyFloat? ("1.000" : String).data = some 1 := by
  have e1 : digitsVal ['1'] = 1 := by decide
  have e2 : digitsVal ['0', '0', '0'] = 0 := by decide
  rw [pyFloat_digits ("1.000" : String).data ['1'] ['0', '0', '0']
    (by decide) (by decide) (by decide) (by decide), e1, e2]
  norm_num

theorem pyFloat_0200 : pyFloat? ("0.200" : String).data = some (1 / 5) := by
  have e1 : digitsVal ['0'] = 0 := by decide
  have e2 : digitsVal ['2', '0', '0'] = 200 := by decide
  rw [pyFloat_digits ("0.200" : String).data ['0'] ['2', '0', '0']
    (by decide) (by decide) (by decide) (by decide), e1, e2]
  norm_num

theorem pyFloat_0300 : pyFloat? ("0.300" : String).data = some (3 / 10) := by
  have e1 : digitsVal ['0'] = 0 := by decide
  have e2 : digitsVal ['3', '0', '0'] = 300 := by decide
  rw [pyFloat_digits ("0.300" : String).data ['0'] ['3', '0', '0']
    (by decide) (by decide) (by decide) (by decide), e1, e2]
  norm_num

theorem pyFloat_2500 : pyFloat? ("2.500" : String).data = some (5 / 2) := by
  have e1 : digitsVal ['2'] = 2 := by decide
  have e2 : digitsVal ['5', '0', '0'] = 500 := by decide
  rw [pyFloat_digits ("2.500" : String).data ['2'] ['5', '0', '0']
    (by decide) (by decide) (by decide) (by decide), e1, e2]
  norm_num

theorem pyFloat_1200 : pyFloat? ("1.200" : String).data = some (6 / 5) := by
  have e1 : digitsVal ['1'] = 1 := by decide
  have e2 : digitsVal ['2', '0', '0'] = 200 := by decide
  rw [pyFloat_digits ("1.200" : String).data ['1'] ['2', '0', '0']
    (by decide) (by decide) (by decide) (by decide), e1, e2]
  norm_num

theorem pyFloat_nonneg (s : List Char) (q : ℚ)
    (h : pyFloat? s = some q) : 0 ≤ q := by
  unfold pyFloat? at h
  split at h
  · split at h
    · exact absurd h (by simp)
    · simp only [Option.some.injEq] at h
      rw [← h]
      positivity
  · split at h
    · simp only [Option.some.injEq] at h
      rw [← h]
      positivity
    · exact absurd h (by simp)

/-- C4: whenever the timer output parses to a triple whose fields convert
to the floats (total, sys, usr) and the caller measured the wall time
`delta_t` around the wrapped invocation, `_time_run` returns exactly
`delta_t - (total - (sys + usr))`. -/
theorem C4_time_correction (output : String) (delta_t : ℚ)
    (t s u : List Char) (total sys_t usr_t : ℚ)
    (hm : findFirstTriple output.data = some (t, s, u))
    (ht : pyFloat? t = some total) (hs : pyFloat? s = some sys_t)
    (hu : pyFloat? u = some usr_t) :
    time_run output delta_t =
      Except.ok (delta_t - (total - (sys_t + usr_t))) := by
  simp only [time_run, hm, ht, hs, hu]

/-- C4 witness: timer output "1.000\t0.200\t0.300" with measured wall time
1.050 yields the corrected time 0.550. -/
theorem C4_time_correction_witness :
    findFirstTriple ("1.000\t0.200\t0.300" : String).data =
      some (("1.000" : String).data, ("0.200" : String).data,
        ("0.300" : String).data) ∧
    pyFloat? ("1.000" : String).data = some 1 ∧
    pyFloat? ("0.200" : String).data = some (1 / 5) ∧
    pyFloat? ("0.300" : String).data = some (3 / 10) ∧
    time_run "1.000\t0.200\t0.300" (21 / 20) = Except.ok (11 / 20) := by
  refine ⟨by decide, pyFloat_1000, pyFloat_0200, pyFloat_0300, ?_⟩
  have h := C4_time_correction "1.000\t0.200\t0.300" (21 / 20)
    ("1.000" : String).data ("0.200" : String).data ("0.300" : String).data
    1 (1 / 5) (3 / 10) (by decide) pyFloat_1000 pyFloat_0200 pyFloat_0300
  rw [h]
  norm_num

/-- C5: for every parsed triple with total ≥ sys + usr and every measured
wall time ≥ total, the corrected time computed by `_time_run` is
non-negative. -/
theorem C5_correction_nonneg (output : String) (delta_t : ℚ)
    (t s u : List Char) (total sys_t usr_t : ℚ)
    (hm : findFirstTriple output.data = some (t, s, u))
    (ht : pyFloat? t = some total) (hs : pyFloat? s = some sys_t)
    (hu : pyFloat? u = some usr_t)
    (h1 : sys_t + usr_t ≤ total) (h2 : total ≤ delta_t) :
    time_run output delta_t =
      Except.ok (delta_t - (total - (sys_t + usr_t))) ∧
    0 ≤ delta_t - (total - (sys_t + usr_t)) := by
  have hns := pyFloat_nonneg s sys_t hs
  have hnu := pyFloat_nonneg u usr_t hu
  refine ⟨?_, by linarith⟩
  simp only [time_run, hm, ht, hs, hu]

/-- C5 witness: the spec scenario — timer output "2.500\t1.000\t1.200"
with measured wall time 2.600 gives the non-negative corrected time
2.300. -/
theorem C5_correction_nonneg_witness :
    findFirstTriple ("2.500\t1.000\t1.200" : String).data =
      some (("2.500" : String).data, ("1.000" : String).data,
        ("1.200" : String).data) ∧
    pyFloat? ("2.500" : String).data = some (5 / 2) ∧
    pyFloat? ("1.000" : String).data = some 1 ∧
    pyFloat? ("1.200" : String).data = some (6 / 5) ∧
    ((1 : ℚ) + 6 / 5 ≤ 5 / 2) ∧ ((5 : ℚ) / 2 ≤ 13 / 5) ∧
    time_run "2.500\t1.000\t1.200" (13 / 5) = Except.ok (23 / 10) ∧
    (0 : ℚ) ≤ 23 / 10 := by
  refine ⟨by decide, pyFloat_2500, pyFloat_1000, pyFloat_1200,
    by norm_num, by norm_num, ?_, by norm_num⟩
  have h := C5_correction_nonneg "2.500\t1.000\t1.200" (13 / 5)
    ("2.500" : String).data ("1.000" : String).data ("1.200" : String).data
    (5 / 2) 1 (6 / 5) (by decide) pyFloat_2500 pyFloat_1000 pyFloat_1200
    (by norm_num) (by norm_num)
  rw [h.1]
  norm_num

/-- C6: when the timer output holds no parseable triple of three numeric
tab-separated fields — the regex finds no match at all (as for "abc"), or a
matched group is not a valid float (as with only two fields, where the
second group matches the empty string) — `_time_run` raises an IndexError
or a ValueError instead of returning any default or uncorrected time. -/
theorem C6_malformed_output_errors (output : String) (delta_t : ℚ)
    (h : tripleParseFails output = true) :
    time_run output delta_t = Except.error PyError.indexError ∨
    time_run output delta_t = Except.error PyError.valueError := by
  unfold tripleParseFails at h
  cases hm : findFirstTriple output.data with
  | none =>
    left
    simp only [time_run, hm]
  | some g =>
    obtain ⟨t, s, u⟩ := g
    rw [hm] at h
    cases ht : pyFloat? t with
    | none => right; simp only [time_run, hm, ht]
    | some total =>
      cases hs : pyFloat? s with
      | none => right; simp only [time_run, hm, ht, hs]
      | some sv =>
        cases hu : pyFloat? u with
        | none => right; simp only [time_run, hm, ht, hs, hu]
        | some uv => simp [ht, hs, hu] at h

/-- C6 witness: the output "abc" (no match: IndexError) and the two-field
output "1.0\t2.0" (the second group matches the empty string, which is not
a valid float: ValueError). -/
theorem C6_malformed_output_errors_witness :
    tripleParseFails "abc" = true ∧
    tripleParseFails "1.0\t2.0" = true ∧
    (time_run "abc" 1 = Except.error PyError.indexError ∨
      time_run "abc" 1 = Except.error PyError.valueError) ∧
    (time_run "1.0\t2.0" 1 = Except.error PyError.indexError ∨
      time_run "1.0\t2.0" 1 = Except.error PyError.valueError) := by
  exact ⟨by decide, by decide,
    C6_malformed_output_errors "abc" 1 (by decide),
    C6_malformed_output_errors "1.0\t2.0" 1 (by decide)⟩
